import Mathlib

/-!
Verification of the GIPHY search-and-render browser script.

The repository holds three variants of the same script:
* `src/js/script.js` and `src/unnamed/part_000` (character-for-character the
  same logic): default-query fallback, `res.ok` status check, existence filter
  on `item?.images?.original?.url`, and an error notice rendered in `catch`;
* `src/unnamed/part_001` (the "tags" variant): alerts on an empty term, builds
  a `/v1/gifs/search/tags` URL with the raw (unencoded) term, never inspects
  the HTTP status, maps `gif.images.original.url` without any filter, and its
  `catch` only logs to the console (no DOM write at all).

The embedding below models JSON values, JavaScript property access (both the
optional-chaining and the throwing strict form), truthiness, `String.trim`,
`encodeURIComponent`, the two fetch pipelines and the two click handlers.
The DOM container is modelled by its `innerHTML` string; each handler is
reduced to the list of `innerHTML` writes it performs (`assign` for
`innerHTML = s`, `append` for `innerHTML += s`), applied to an initial
container content.
-/

namespace GiphyLab

/-- JSON values as produced by `res.json()` / `JSON.parse`.  Numbers are
restricted to integers (no claim depends on float formatting); object field
lists are treated as maps with distinct keys, which is what `JSON.parse`
produces (later duplicates overwrite earlier ones). -/
inductive JVal where
  | str (s : String)
  | num (n : Int)
  | bool (b : Bool)
  | null
  | obj (fields : List (String × JVal))
  | arr (elems : List JVal)

/-- Field lookup in a JSON object, first match. -/
def jlookup : List (String × JVal) → String → Option JVal
  | [], _ => none
  | (k, v) :: rest, key => if k = key then some v else jlookup rest key

/-- Optional-chaining property access `a?.k` on a possibly-`undefined` value
(`none` models `undefined`).  Nullish receivers short-circuit to `undefined`;
property access on a non-object primitive yields `undefined` for the keys this
script reads. -/
def optGet : Option JVal → String → Option JVal
  | none, _ => none
  | some JVal.null, _ => none
  | some (JVal.obj fs), k => jlookup fs k
  | some _, _ => none

/-- Errors a pipeline step can produce, as observed at the `catch` boundary. -/
inductive JsError where
  /-- `throw new Error(msg)` -/
  | errorMsg (msg : String)
  /-- `TypeError` from property access or method call on `undefined`/`null`
  or on a value lacking the method -/
  | typeError
  /-- `fetch` itself rejected (transport failure) -/
  | transportError
  /-- `res.json()` rejected (malformed body) -/
  | decodeError
  deriving DecidableEq

/-- Strict property access `a.k`: throws a `TypeError` on `undefined` or
`null`, looks up the field on objects, yields `undefined` on other
primitives. -/
def strictGet : Option JVal → String → Except JsError (Option JVal)
  | none, _ => Except.error JsError.typeError
  | some JVal.null, _ => Except.error JsError.typeError
  | some (JVal.obj fs), k => Except.ok (jlookup fs k)
  | some _, _ => Except.ok none

/-- JavaScript truthiness of a possibly-`undefined` value. -/
def truthy : Option JVal → Bool
  | none => false
  | some JVal.null => false
  | some (JVal.bool b) => b
  | some (JVal.str s) => !(s == "")
  | some (JVal.num n) => !(n == 0)
  | some (JVal.obj _) => true
  | some (JVal.arr _) => true

mutual

/-- JavaScript string coercion of a JSON value, as used by template-literal
interpolation. -/
def jsToString : JVal → String
  | JVal.str s => s
  | JVal.num n => toString n
  | JVal.bool true => "true"
  | JVal.bool false => "false"
  | JVal.null => "null"
  | JVal.obj _ => "[object Object]"
  | JVal.arr es => joinComma es

/-- `Array.prototype.toString`: elements joined by commas, `null` printed as
the empty string. -/
def joinComma : List JVal → String
  | [] => ""
  | [JVal.null] => ""
  | [e] => jsToString e
  | JVal.null :: rest => "," ++ joinComma rest
  | e :: rest => jsToString e ++ "," ++ joinComma rest

end

/-- Template-literal interpolation of a possibly-`undefined` value. -/
def strOf : Option JVal → String
  | none => "undefined"
  | some v => jsToString v

/-- An HTTP response as the script observes it: a status code and the result
of `res.json()` (`none` when the body is not valid JSON, so that `json()`
rejects). -/
structure JsResponse where
  status : Nat
  body : Option JVal

/-- `Response.ok`: status in the inclusive range 200–299. -/
def resOk (status : Nat) : Bool :=
  decide (200 ≤ status) && decide (status ≤ 299)

/-- The network, mapping a request URL to a delivered response; `none` models
a transport-level rejection of `fetch`. -/
abbrev Network := String → Option JsResponse

/-- Sequential `.map` over a JS array where the callback may throw: the first
thrown error aborts the whole call. -/
def mapJS (f : JVal → Except JsError (Option JVal)) :
    List JVal → Except JsError (List (Option JVal))
  | [] => Except.ok []
  | x :: xs =>
    match f x with
    | Except.error e => Except.error e
    | Except.ok v =>
      match mapJS f xs with
      | Except.error e => Except.error e
      | Except.ok vs => Except.ok (v :: vs)

/-- `item?.images?.original?.url` (the filter predicate's chain). -/
def optUrl (it : JVal) : Option JVal :=
  optGet (optGet (optGet (some it) "images") "original") "url"

/-- `item.images.original.url` with strict (throwing) property access, as in
the `.map` callbacks. -/
def strictUrl (it : JVal) : Except JsError (Option JVal) :=
  match strictGet (some it) "images" with
  | Except.error e => Except.error e
  | Except.ok o1 =>
    match strictGet o1 "original" with
    | Except.error e => Except.error e
    | Except.ok o2 => strictGet o2 "url"

/-- ECMAScript whitespace as recognised by `String.prototype.trim`. -/
def isJsWs (c : Char) : Bool :=
  c == ' ' || c == Char.ofNat 9 || c == Char.ofNat 10 || c == Char.ofNat 11 ||
  c == Char.ofNat 12 || c == Char.ofNat 13 || c == Char.ofNat 160 ||
  c == Char.ofNat 5760 ||
  (decide (8192 ≤ c.toNat) && decide (c.toNat ≤ 8202)) ||
  c == Char.ofNat 8232 || c == Char.ofNat 8233 || c == Char.ofNat 8239 ||
  c == Char.ofNat 8287 || c == Char.ofNat 12288 || c == Char.ofNat 65279

/-- `String.prototype.trim`. -/
def jsTrim (s : String) : String :=
  String.mk (((s.data.dropWhile isJsWs).reverse.dropWhile isJsWs).reverse)

/-- Characters `encodeURIComponent` leaves unescaped:
alphanumerics and `- _ . ! ~ * ' ( )`. -/
def isUnreserved (c : Char) : Bool :=
  c.isAlphanum || c == '-' || c == '_' || c == '.' || c == '!' || c == '~' ||
  c == '*' || c == Char.ofNat 39 || c == '(' || c == ')'

/-- UTF-8 bytes of a Unicode scalar value. -/
def utf8Bytes (c : Char) : List Nat :=
  let n := c.toNat
  if n < 128 then [n]
  else if n < 2048 then [192 + n / 64, 128 + n % 64]
  else if n < 65536 then [224 + n / 4096, 128 + (n / 64) % 64, 128 + n % 64]
  else [240 + n / 262144, 128 + (n / 4096) % 64, 128 + (n / 64) % 64, 128 + n % 64]

/-- Uppercase hexadecimal digit for `m < 16`. -/
def hexDigitM (m : Nat) : Char :=
  if m < 10 then Char.ofNat (48 + m) else Char.ofNat (55 + m)

/-- Uppercase hexadecimal digit of `n % 16`. -/
def hexDigit (n : Nat) : Char :=
  hexDigitM (n % 16)

/-- Percent-encoding of one byte. -/
def pctByte (b : Nat) : List Char :=
  ['%', hexDigit (b / 16), hexDigit (b % 16)]

/-- Per-character output of `encodeURIComponent`. -/
def encChar (c : Char) : List Char :=
  if isUnreserved c then [c] else (utf8Bytes c).flatMap pctByte

/-- The standard `encodeURIComponent` function. -/
def encodeURIComponent (s : String) : String :=
  String.mk (s.data.flatMap encChar)

/-- `const API_KEY = ...` (script.js line 35 / part_000 line 16). -/
def API_KEY : String := "kRB3yQVxhHG7HfBAwbWk1eFfBTpMHdP3"

/-- `const LIMIT = 25` (script.js line 60). -/
def LIMIT : Nat := 25

/-- `const RATING = "g"` (script.js line 61). -/
def RATING : String := "g"

/-- `const LANG = "en"` (script.js line 62). -/
def LANG : String := "en"

/-- `const DEFAULT_QUERY = "cats"` (script.js line 63). -/
def DEFAULT_QUERY : String := "cats"

/-- The precomputed default endpoint (script.js lines 66-74, part_000 lines
27-35). -/
def endpoint : String :=
  "https://api.giphy.com/v1/gifs/search" ++
  "?api_key=" ++ API_KEY ++
  "&q=" ++ encodeURIComponent DEFAULT_QUERY ++
  "&limit=" ++ toString LIMIT ++
  "&offset=0" ++
  "&rating=" ++ RATING ++
  "&lang=" ++ LANG ++
  "&bundle=messaging_non_clips"

/-- The URL the click handler builds for a non-empty term (script.js lines
160-168, part_000 lines 74-82). -/
def clickBuildUrl (term : String) : String :=
  "https://api.giphy.com/v1/gifs/search" ++
  "?api_key=" ++ API_KEY ++
  "&q=" ++ encodeURIComponent term ++
  "&limit=" ++ toString LIMIT ++
  "&offset=0" ++
  "&rating=" ++ RATING ++
  "&lang=" ++ LANG ++
  "&bundle=messaging_non_clips"

/-- The URL the main click handler requests: the dynamic URL when the trimmed
term is truthy (non-empty), otherwise the precomputed `endpoint` (script.js
lines 153-169). -/
def clickUrlA (input : String) : String :=
  if jsTrim input = "" then endpoint else clickBuildUrl (jsTrim input)

/-- `fetchGifs` of script.js lines 101-124 (identical in part_000 lines
45-61): check `res.ok`, decode JSON, then
`data.data.filter(item => item?.images?.original?.url).map(item => item.images.original.url)`.
Calling `.filter` on anything but an array throws a `TypeError`. -/
def fetchGifs (net : Network) (url : String) : Except JsError (List (Option JVal)) :=
  match net url with
  | none => Except.error JsError.transportError
  | some res =>
    if resOk res.status = false then
      Except.error (JsError.errorMsg ("HTTP " ++ toString res.status))
    else
      match res.body with
      | none => Except.error JsError.decodeError
      | some d =>
        match strictGet (some d) "data" with
        | Except.error e => Except.error e
        | Except.ok (some (JVal.arr items)) =>
          mapJS strictUrl (items.filter (fun it => truthy (optUrl it)))
        | Except.ok _ => Except.error JsError.typeError

/-- One write to `gifContainer.innerHTML`: a destructive assignment or an
append (`+=`). -/
inductive DomEvent where
  | assign (s : String)
  | append (s : String)
  deriving DecidableEq

/-- Replay a sequence of `innerHTML` writes over an initial content. -/
def applyEvents : String → List DomEvent → String
  | c, [] => c
  | _, DomEvent.assign s :: rest => applyEvents s rest
  | c, DomEvent.append s :: rest => applyEvents (c ++ s) rest

/-- Is the event a destructive assignment? -/
def isAssign : DomEvent → Bool
  | DomEvent.assign _ => true
  | DomEvent.append _ => false

/-- Number of destructive `innerHTML` assignments in a write sequence. -/
def countAssigns (evs : List DomEvent) : Nat :=
  (evs.filter isAssign).length

/-- The grid chunk appended per GIF by script.js lines 181-184 (identical in
part_000 lines 93-96). -/
def gifChunkA (src : String) : String :=
  "\n        <div class=\"col-6 col-md-3\">\n          <img src=\"" ++ src ++
  "\" class=\"img-fluid\" alt=\"GIF\">\n        </div>"

/-- The error notice assigned by script.js lines 191-196 (identical in
part_000 lines 100-105). -/
def errorChunkA : String :=
  "\n      <div class=\"col-12\">\n        <div class=\"alert alert-danger\" role=\"alert\">\n          Failed to fetch GIFs. Check the console for details.\n        </div>\n      </div>"

/-- The `innerHTML` writes one invocation of the main click handler performs
(script.js lines 151-198): on success, one clear followed by one append per
collected URL; on any caught error, a single assignment of the error
notice. -/
def clickEventsA (net : Network) (input : String) : List DomEvent :=
  match fetchGifs net (clickUrlA input) with
  | Except.ok srcs =>
    DomEvent.assign "" :: srcs.map (fun s => DomEvent.append (gifChunkA (strOf s)))
  | Except.error _ => [DomEvent.assign errorChunkA]

/-- Container content after one invocation of the main click handler, given
the initial content. -/
def containerA (net : Network) (input : String) (c0 : String) : String :=
  applyEvents c0 (clickEventsA net input)

/-- The image chunk appended per GIF by part_001 line 36. -/
def gifChunkC (src : String) : String :=
  "<img src=\"" ++ src ++ "\" class=\"col-3 mb-3 img-fluid\" alt=\"GIF\">"

/-- The URL part_001 line 21 builds: the `/tags` path, raw term interpolation
(no `encodeURIComponent`), no rating/lang/bundle parameters. -/
def clickUrlC (term : String) : String :=
  "https://api.giphy.com/v1/gifs/search/tags?api_key=kRB3yQVxhHG7HfBAwbWk1eFfBTpMHdP3&q=" ++
  term ++ "&limit=25&offset=0"

/-- The fetch-and-extract part of part_001 lines 25-29: no status check, and
`data.data.map(gif => gif.images.original.url)` with no existence filter. -/
def fetchPipeC (net : Network) (url : String) : Except JsError (List (Option JVal)) :=
  match net url with
  | none => Except.error JsError.transportError
  | some res =>
    match res.body with
    | none => Except.error JsError.decodeError
    | some d =>
      match strictGet (some d) "data" with
      | Except.error e => Except.error e
      | Except.ok (some (JVal.arr items)) => mapJS strictUrl items
      | Except.ok _ => Except.error JsError.typeError

/-- Outcome of one invocation of the part_001 click handler: either the
blocking alert (no request at all), or a request to the given URL followed by
the listed `innerHTML` writes. -/
inductive COutcome where
  | alerted (msg : String)
  | fetched (url : String) (events : List DomEvent)
  deriving DecidableEq

/-- The part_001 click handler (lines 10-45): alert and return on an empty
trimmed term; otherwise fetch, and on success clear then append per URL, while
the `catch` block only logs — it performs no DOM write. -/
def clickC (net : Network) (input : String) : COutcome :=
  if jsTrim input = "" then COutcome.alerted "Please enter a search term!"
  else
    match fetchPipeC net (clickUrlC (jsTrim input)) with
    | Except.ok srcs =>
      COutcome.fetched (clickUrlC (jsTrim input))
        (DomEvent.assign "" :: srcs.map (fun s => DomEvent.append (gifChunkC (strOf s))))
    | Except.error _ => COutcome.fetched (clickUrlC (jsTrim input)) []

/-- Container content after one invocation of the part_001 click handler. -/
def containerC (net : Network) (input : String) (c0 : String) : String :=
  match clickC net input with
  | COutcome.alerted _ => c0
  | COutcome.fetched _ evs => applyEvents c0 evs

/-- Number of occurrences of a non-empty pattern in a character list. -/
def occurs (pat : List Char) : List Char → Nat
  | [] => 0
  | c :: cs => (if List.isPrefixOf pat (c :: cs) then 1 else 0) + occurs pat cs

/-- Number of `<img` element openings in rendered markup. -/
def countImg (s : String) : Nat :=
  occurs ("<img").data s.data

/-- Number of `alert-danger` error notices in rendered markup. -/
def countNotice (s : String) : Nat :=
  occurs ("alert-danger").data s.data

/-- Split a character list at every occurrence of a separator. -/
def splitChar (sep : Char) : List Char → List (List Char)
  | [] => [[]]
  | c :: cs =>
    if c = sep then [] :: splitChar sep cs
    else
      match splitChar sep cs with
      | [] => [[c]]
      | g :: gs => (c :: g) :: gs

/-- The values of the `q` query parameters of a URL: take everything after
the first `?`, split on `&`, keep the pairs whose key (text before the first
`=`) is `q`, and return their values (text after the first `=`). -/
def qValues (url : String) : List String :=
  (((splitChar '&' ((url.data.dropWhile (fun c => !(c == '?'))).drop 1))).filter
      (fun p => p.takeWhile (fun c => !(c == '=')) == ("q").data)).map
    (fun p => String.mk ((p.dropWhile (fun c => !(c == '='))).drop 1))

/-- Everything of the built search URL before the encoded term. -/
def urlPfx : String :=
  "https://api.giphy.com/v1/gifs/search?api_key=kRB3yQVxhHG7HfBAwbWk1eFfBTpMHdP3&q="

/-- Everything of the built search URL after the encoded term. -/
def urlSfx : String :=
  "&limit=25&offset=0&rating=g&lang=en&bundle=messaging_non_clips"

/-- A well-formed result element (the spec §8 example). -/
def c1Item1 : JVal :=
  JVal.obj [("images", JVal.obj [("original", JVal.obj [("url", JVal.str "https://x/1.gif")])])]

/-- A malformed result element: `images` is present but has no `original`. -/
def c1Item2 : JVal := JVal.obj [("images", JVal.obj [])]

/-- The spec §8 example body: two elements, one well-formed (M = 1, N = 2). -/
def c1Body : JVal := JVal.obj [("data", JVal.arr [c1Item1, c1Item2])]

/-- Network delivering the spec §8 example with HTTP 200 to any URL. -/
def c1Net : Network := fun _ => some ⟨200, some c1Body⟩

/-- A body with one well-formed result element. -/
def c2tBody : JVal :=
  JVal.obj [("data", JVal.arr
    [JVal.obj [("images", JVal.obj [("original", JVal.obj [("url", JVal.str "https://x/2.gif")])])]])]

/-- Network answering every request with HTTP 404 but a well-formed body. -/
def c2tNet : Network := fun _ => some ⟨404, some c2tBody⟩

/-- An HTTP 404 response with an empty-object body. -/
def c2wRes : JsResponse := ⟨404, some (JVal.obj [])⟩

/-- Network answering every request with `c2wRes`. -/
def c2wNet : Network := fun _ => some c2wRes

/-- Network on which every fetch rejects at the transport level. -/
def c3tNet : Network := fun _ => none

/-- Network answering HTTP 200 with a body that has no `data` field. -/
def c5tNet : Network := fun _ => some ⟨200, some (JVal.obj [("message", JVal.str "OK")])⟩

/-- An HTTP 200 response whose parsed body lacks the `data` field. -/
def c5wRes : JsResponse := ⟨200, some (JVal.obj [("meta", JVal.str "x")])⟩

/-- Network answering every request with `c5wRes`. -/
def c5wNet : Network := fun _ => some c5wRes

/-- An HTTP 200 response whose `data` array is empty. -/
def c6wRes : JsResponse := ⟨200, some (JVal.obj [("data", JVal.arr [])])⟩

/-- Network answering every request with `c6wRes`. -/
def c6wNet : Network := fun _ => some c6wRes

/-- Network on which every fetch rejects (used for the empty-term witness,
where no request is issued anyway). -/
def c4wNet : Network := fun _ => none

/-- Network delivering one well-formed result with HTTP 200. -/
def c7wNet : Network := fun _ =>
  some ⟨200, some (JVal.obj [("data", JVal.arr
    [JVal.obj [("images", JVal.obj [("original", JVal.obj [("url", JVal.str "https://x/7.gif")])])]])])⟩

/-- Network answering HTTP 200 with an empty-object body (no `data`), so the
part_001 extraction throws. -/
def c8tNet : Network := fun _ => some ⟨200, some (JVal.obj [])⟩

/-- Network on which every fetch rejects at the transport level. -/
def c8wNet : Network := fun _ => none

/-- Network answering HTTP 200 with a body that is not valid JSON, so
`res.json()` rejects. -/
def c9tNet : Network := fun _ => some ⟨200, none⟩

/-- Network on which every fetch rejects at the transport level. -/
def c9wNetA : Network := fun _ => none

/-- Network answering every request with HTTP 500 and an empty-object body. -/
def c9wNetB : Network := fun _ => some ⟨500, some (JVal.obj [])⟩

/-! ## Helper lemmas -/

/-- Two strings with the same character data are equal. -/
theorem strExt {a b : String} (h : a.data = b.data) : a = b := by
  cases a; cases b; cases h; rfl

/-- The character data of a concatenation. -/
theorem strData_append (a b : String) : (a ++ b).data = a.data ++ b.data := by
  cases a; cases b; rfl

/-- String concatenation is associative. -/
theorem sapp_assoc (a b c : String) : a ++ b ++ c = a ++ (b ++ c) :=
  strExt (by simp only [strData_append, List.append_assoc])

/-- `dropWhile` over an append when the predicate already stops inside the
first part. -/
theorem dropWhile_append_stop (p : Char → Bool) (a b : List Char)
    (h : a.dropWhile p ≠ []) :
    (a ++ b).dropWhile p = a.dropWhile p ++ b := by
  induction a with
  | nil => simp [List.dropWhile] at h
  | cons c cs ih =>
    cases hpc : p c with
    | true =>
      have h' : cs.dropWhile p ≠ [] := by simpa [List.dropWhile, hpc] using h
      simp [List.dropWhile, hpc, ih h']
    | false => simp [List.dropWhile, hpc]

/-- Splitting at the first separator occurrence peels off the prefix. -/
theorem splitChar_sep_append (sep : Char) (a b : List Char) (h : sep ∉ a) :
    splitChar sep (a ++ sep :: b) = a :: splitChar sep b := by
  induction a with
  | nil => simp [splitChar]
  | cons c cs ih =>
    have hc : ¬(c = sep) := fun he => h (he ▸ List.mem_cons_self c cs)
    have hcs : sep ∉ cs := fun hm => h (List.mem_cons_of_mem c hm)
    simp [splitChar, hc, ih hcs]

/-- Every character `encodeURIComponent` emits for one input character is
unreserved, a percent sign, or an uppercase hexadecimal digit. -/
theorem mem_encChar {x c : Char} (hx : x ∈ encChar c) :
    isUnreserved x = true ∨ x = '%' ∨ ∃ m, m < 16 ∧ x = hexDigitM m := by
  unfold encChar at hx
  by_cases hu : isUnreserved c
  · rw [if_pos hu] at hx
    have hxc : x = c := List.mem_singleton.mp hx
    exact Or.inl (hxc ▸ hu)
  · rw [if_neg hu] at hx
    rcases List.mem_flatMap.mp hx with ⟨bb, _, hb⟩
    unfold pctByte at hb
    simp only [List.mem_cons, List.not_mem_nil, or_false] at hb
    rcases hb with rfl | rfl | rfl
    · exact Or.inr (Or.inl rfl)
    · exact Or.inr (Or.inr ⟨bb / 16 % 16, Nat.mod_lt _ (by omega), rfl⟩)
    · exact Or.inr (Or.inr ⟨bb % 16 % 16, Nat.mod_lt _ (by omega), rfl⟩)

/-- Every character of an `encodeURIComponent` output is unreserved, a percent
sign, or an uppercase hexadecimal digit. -/
theorem mem_enc {x : Char} (t : String) (hx : x ∈ (encodeURIComponent t).data) :
    isUnreserved x = true ∨ x = '%' ∨ ∃ m, m < 16 ∧ x = hexDigitM m := by
  unfold encodeURIComponent at hx
  rcases List.mem_flatMap.mp hx with ⟨c, _, hc⟩
  exact mem_encChar hc

/-- `encodeURIComponent` never emits an ampersand. -/
theorem enc_no_amp (t : String) : ('&' : Char) ∉ (encodeURIComponent t).data := by
  intro hx
  rcases mem_enc t hx with h | h | ⟨m, hm, he⟩
  · exact absurd h (by decide)
  · exact absurd h (by decide)
  · have hall : ∀ m, m < 16 → ¬(('&' : Char) = hexDigitM m) := by decide
    exact hall m hm he

/-- The built search URL decomposes as prefix, encoded term, suffix. -/
theorem clickBuildUrl_eq (t : String) :
    clickBuildUrl t = urlPfx ++ (encodeURIComponent t ++ urlSfx) := by
  unfold clickBuildUrl
  simp only [sapp_assoc]
  rfl

/-- Character-level decomposition of the built search URL. -/
theorem clickBuildUrl_data (t : String) :
    (clickBuildUrl t).data = urlPfx.data ++ ((encodeURIComponent t).data ++ urlSfx.data) := by
  rw [clickBuildUrl_eq t, strData_append, strData_append]

/-- Parsing the built search URL finds exactly one `q` parameter and its value
is the encoded term. -/
theorem qValues_build (t : String) : qValues (clickBuildUrl t) = [encodeURIComponent t] := by
  have hne : ('&' : Char) ∉ (encodeURIComponent t).data := enc_no_amp t
  unfold qValues
  rw [clickBuildUrl_data]
  have hq : ((urlPfx.data ++ ((encodeURIComponent t).data ++ urlSfx.data)).dropWhile
        (fun c => !(c == '?'))).drop 1 =
      ("api_key=kRB3yQVxhHG7HfBAwbWk1eFfBTpMHdP3").data ++
        ('&' :: (("q=").data ++ ((encodeURIComponent t).data ++ urlSfx.data))) := rfl
  rw [hq]
  have h3 : urlSfx.data =
      '&' :: ("limit=25&offset=0&rating=g&lang=en&bundle=messaging_non_clips").data := rfl
  rw [h3, ← List.append_assoc]
  rw [splitChar_sep_append '&' (("api_key=kRB3yQVxhHG7HfBAwbWk1eFfBTpMHdP3").data) _ (by decide)]
  rw [splitChar_sep_append '&' (("q=").data ++ (encodeURIComponent t).data) _ (by
    intro hm
    rcases List.mem_append.mp hm with hq2 | hq2
    · revert hq2; decide
    · exact hne hq2)]
  rfl

/-- If the optional chain yields an object, so does the strict access. -/
theorem opt_some_obj {o : Option JVal} {k : String} {v : JVal}
    (h : optGet o k = some v) : ∃ fs, o = some (JVal.obj fs) := by
  match o with
  | none => exact absurd h (by simp [optGet])
  | some JVal.null => exact absurd h (by simp [optGet])
  | some (JVal.obj fs) => exact ⟨fs, rfl⟩
  | some (JVal.str s) => exact absurd h (by simp [optGet])
  | some (JVal.num n) => exact absurd h (by simp [optGet])
  | some (JVal.bool b) => exact absurd h (by simp [optGet])
  | some (JVal.arr l) => exact absurd h (by simp [optGet])

/-- On an element kept by the filter, the strict access chain of the `.map`
callback cannot throw and produces exactly the optional chain's value. -/
theorem strictUrl_of_truthy {it : JVal} (h : truthy (optUrl it) = true) :
    strictUrl it = Except.ok (optUrl it) := by
  obtain ⟨v, hv⟩ : ∃ v, optUrl it = some v := by
    cases ho : optUrl it with
    | none => rw [ho] at h; exact absurd h (by simp [truthy])
    | some v => exact ⟨v, rfl⟩
  have h3 : optGet (optGet (optGet (some it) "images") "original") "url" = some v := hv
  obtain ⟨fs2, h2⟩ := opt_some_obj h3
  rw [h2] at h3
  obtain ⟨fs1, h1⟩ := opt_some_obj h2
  rw [h1] at h2
  obtain ⟨fs0, h0⟩ := opt_some_obj h1
  rw [h0] at h1
  have h0' : it = JVal.obj fs0 := Option.some.inj h0
  subst h0'
  rw [hv]
  simp only [optGet] at h1 h2 h3
  simp [strictUrl, strictGet, h1, h2, h3]

/-- The sequential `.map` over filtered elements succeeds and returns the
optional-chain values in order. -/
theorem mapJS_ok (l : List JVal) (h : ∀ it ∈ l, truthy (optUrl it) = true) :
    mapJS strictUrl l = Except.ok (l.map optUrl) := by
  induction l with
  | nil => rfl
  | cons a as ih =>
    have ha : strictUrl a = Except.ok (optUrl a) :=
      strictUrl_of_truthy (h a (List.mem_cons_self a as))
    have has := ih (fun it hit => h it (List.mem_cons_of_mem a hit))
    simp [mapJS, ha, has]

/-- Main-variant success path: on a successful response whose body carries a
`data` array, `fetchGifs` returns, in original order, exactly the
optional-chain values of the elements that pass the existence filter. -/
theorem fetchGifs_ok (net : Network) (url : String) (res : JsResponse) (d : JVal)
    (items : List JVal) (h : net url = some res) (hok : resOk res.status = true)
    (hb : res.body = some d)
    (hd : strictGet (some d) "data" = Except.ok (some (JVal.arr items))) :
    fetchGifs net url =
      Except.ok ((items.filter (fun it => truthy (optUrl it))).map optUrl) := by
  have hfilter : ∀ it ∈ items.filter (fun it => truthy (optUrl it)), truthy (optUrl it) = true :=
    fun it hit => (List.mem_filter.mp hit).2
  simp [fetchGifs, h, hok, hb, hd, mapJS_ok _ hfilter]

/-- Appends alone contain no destructive assignment. -/
theorem filter_isAssign_appends (f : Option JVal → String) (l : List (Option JVal)) :
    ((l.map fun s => DomEvent.append (f s)).filter isAssign) = [] := by
  induction l with
  | nil => rfl
  | cons a as ih => simp [isAssign, ih]

/-! ## Claims -/

set_option maxRecDepth 16384

/-- C1: the claim (extract-and-render produces exactly the M well-formed
elements in order, skipping the N−M malformed ones) is the intended contract,
but the part_001 code violates it.  On the spec's own example response
(N = 2 elements, M = 1 with a non-empty nested original-image-URL), part_001's
unfiltered `data.data.map(gif => gif.images.original.url)` throws a
`TypeError` on the malformed element, its `catch` only logs, and zero image
elements are rendered — while the main variant (script.js / part_000) renders
exactly the one well-formed image, in order. -/
theorem c1_part001_unfiltered_bug :
    ([c1Item1, c1Item2].filter (fun it => truthy (optUrl it))).length = 1 ∧
    mapJS strictUrl [c1Item1, c1Item2] = Except.error JsError.typeError ∧
    clickC c1Net "cats" = COutcome.fetched (clickUrlC "cats") [] ∧
    countImg (containerC c1Net "cats" "") = 0 ∧
    clickEventsA c1Net "cats" =
      [DomEvent.assign "", DomEvent.append (gifChunkA "https://x/1.gif")] ∧
    countImg (containerA c1Net "cats" "") = 1 :=
  ⟨rfl, rfl, rfl, rfl, rfl, rfl⟩

/-- C2 counterexample: the part_001 pipeline never inspects the HTTP status.
On a 404 response with a parseable body it takes the success path: it renders
one image element and zero error notices, contradicting the claim that every
non-success status leads to the failure path with exactly one error notice
and zero image elements. -/
theorem c2_tags_no_status_check :
    resOk 404 = false ∧
    clickC c2tNet "dogs" = COutcome.fetched (clickUrlC "dogs")
      [DomEvent.assign "", DomEvent.append (gifChunkC "https://x/2.gif")] ∧
    countImg (containerC c2tNet "dogs" "") = 1 ∧
    countNotice (containerC c2tNet "dogs" "") = 0 :=
  ⟨rfl, rfl, rfl, rfl⟩

/-- C2 (amended): in the main variant (script.js / part_000), every response
with a non-success HTTP status makes `fetchGifs` throw an error tagged
`HTTP <status>`, and the click handler renders exactly one error notice and
zero image elements, whatever the body was. -/
theorem c2_main_http_error (net : Network) (input c0 : String) (res : JsResponse)
    (h : net (clickUrlA input) = some res) (hbad : resOk res.status = false) :
    fetchGifs net (clickUrlA input) =
      Except.error (JsError.errorMsg ("HTTP " ++ toString res.status)) ∧
    clickEventsA net input = [DomEvent.assign errorChunkA] ∧
    containerA net input c0 = errorChunkA ∧
    countImg errorChunkA = 0 ∧ countNotice errorChunkA = 1 := by
  have hf : fetchGifs net (clickUrlA input) =
      Except.error (JsError.errorMsg ("HTTP " ++ toString res.status)) := by
    simp [fetchGifs, h, hbad]
  exact ⟨hf, by simp [clickEventsA, hf],
    by simp [containerA, clickEventsA, hf, applyEvents], rfl, rfl⟩

/-- C2 witness: a concrete 404 response exercising the amended theorem. -/
theorem c2_main_http_error_witness :
    resOk c2wRes.status = false ∧
    (fetchGifs c2wNet (clickUrlA "dog") =
        Except.error (JsError.errorMsg ("HTTP " ++ toString c2wRes.status)) ∧
      clickEventsA c2wNet "dog" = [DomEvent.assign errorChunkA] ∧
      containerA c2wNet "dog" "old" = errorChunkA ∧
      countImg errorChunkA = 0 ∧ countNotice errorChunkA = 1) :=
  ⟨rfl, c2_main_http_error c2wNet "dog" "old" c2wRes rfl rfl⟩

/-- C3 counterexample: part_001 interpolates the raw term into the URL without
`encodeURIComponent`.  For the term `a&b` the encoded form `a%26b` does not
occur in the built URL at all (zero times, not once), and the URL's only `q`
parameter carries the value `a`.  The last conjunct shows the click handler
does request exactly that unencoded URL. -/
theorem c3_tags_unencoded :
    encodeURIComponent "a&b" = "a%26b" ∧
    occurs ("a%26b").data (clickUrlC "a&b").data = 0 ∧
    qValues (clickUrlC "a&b") = ["a"] ∧
    clickC c3tNet "a&b" = COutcome.fetched (clickUrlC "a&b") [] :=
  ⟨rfl, rfl, rfl, rfl⟩

/-- C3 (amended): in the main variant (script.js / part_000), for every input
whose trimmed term is non-empty, the built URL contains exactly one `q` query
parameter and its value is precisely the URL-encoded trimmed term. -/
theorem c3_main_encoded_once (input : String) (h : jsTrim input ≠ "") :
    qValues (clickUrlA input) = [encodeURIComponent (jsTrim input)] := by
  have hurl : clickUrlA input = clickBuildUrl (jsTrim input) := by
    unfold clickUrlA
    rw [if_neg h]
  rw [hurl]
  exact qValues_build (jsTrim input)

/-- C3 witness: a concrete term with whitespace and an inner space. -/
theorem c3_main_encoded_once_witness :
    jsTrim " fluffy dogs " ≠ "" ∧
    qValues (clickUrlA " fluffy dogs ") = [encodeURIComponent (jsTrim " fluffy dogs ")] :=
  ⟨by decide, c3_main_encoded_once " fluffy dogs " (by decide)⟩

/-- C4: for an empty or whitespace-only input term, each variant follows its
configured fallback policy: the main variant (script.js / part_000) requests
the precomputed default endpoint — which is the builder's URL for the default
term `cats` with the same fixed parameters — while part_001 alerts the user
and issues no request at all. -/
theorem c4_empty_term_policies (input : String) (h : jsTrim input = "") :
    clickUrlA input = endpoint ∧
    endpoint = clickBuildUrl "cats" ∧
    (∀ net : Network, clickC net input = COutcome.alerted "Please enter a search term!") := by
  refine ⟨?_, rfl, fun net => ?_⟩
  · unfold clickUrlA
    rw [if_pos h]
  · unfold clickC
    rw [if_pos h]

/-- C4 witness: a whitespace-only input. -/
theorem c4_empty_term_policies_witness :
    jsTrim "   " = "" ∧
    (clickUrlA "   " = endpoint ∧ endpoint = clickBuildUrl "cats" ∧
      clickC c4wNet "   " = COutcome.alerted "Please enter a search term!") := by
  have h := c4_empty_term_policies "   " rfl
  exact ⟨rfl, h.1, h.2.1, h.2.2 c4wNet⟩

/-- C5 counterexample: on a parsed body lacking the `data` field, part_001's
`data.data.map` throws, its `catch` only logs, and zero error notices are
rendered (prior content is even left in place), contradicting the claim that
exactly one error notice is rendered. -/
theorem c5_tags_missing_data_no_notice :
    clickC c5tNet "dogs" = COutcome.fetched (clickUrlC "dogs") [] ∧
    containerC c5tNet "dogs" "PREVIOUS" = "PREVIOUS" ∧
    countNotice (containerC c5tNet "dogs" "") = 0 ∧
    countImg (containerC c5tNet "dogs" "") = 0 :=
  ⟨rfl, rfl, rfl, rfl⟩

/-- C5 (amended): in the main variant (script.js / part_000), a successful
response whose parsed body is an object without the `data` field makes the
extraction throw a `TypeError` (undefined has no `.filter`), and the click
handler renders exactly one error notice and zero image elements. -/
theorem c5_main_missing_data (net : Network) (input c0 : String) (res : JsResponse)
    (fs : List (String × JVal)) (h : net (clickUrlA input) = some res)
    (hok : resOk res.status = true) (hb : res.body = some (JVal.obj fs))
    (hd : jlookup fs "data" = none) :
    fetchGifs net (clickUrlA input) = Except.error JsError.typeError ∧
    clickEventsA net input = [DomEvent.assign errorChunkA] ∧
    containerA net input c0 = errorChunkA ∧
    countImg errorChunkA = 0 ∧ countNotice errorChunkA = 1 := by
  have hf : fetchGifs net (clickUrlA input) = Except.error JsError.typeError := by
    simp [fetchGifs, h, hok, hb, strictGet, hd]
  exact ⟨hf, by simp [clickEventsA, hf],
    by simp [containerA, clickEventsA, hf, applyEvents], rfl, rfl⟩

/-- C5 witness: a concrete 200 response whose body has no `data` field. -/
theorem c5_main_missing_data_witness :
    resOk c5wRes.status = true ∧
    jlookup [("meta", JVal.str "x")] "data" = none ∧
    (fetchGifs c5wNet (clickUrlA "dog") = Except.error JsError.typeError ∧
      clickEventsA c5wNet "dog" = [DomEvent.assign errorChunkA] ∧
      containerA c5wNet "dog" "prev" = errorChunkA ∧
      countImg errorChunkA = 0 ∧ countNotice errorChunkA = 1) :=
  ⟨rfl, rfl, c5_main_missing_data c5wNet "dog" "prev" c5wRes [("meta", JVal.str "x")]
    rfl rfl rfl rfl⟩

/-- C6: when the fetched response is successful and its `data` array is empty,
the main pipeline takes the success path and renders an empty grid: the
container ends up empty, with zero image elements and zero error notices. -/
theorem c6_empty_data_empty_grid (net : Network) (input c0 : String) (res : JsResponse)
    (fs : List (String × JVal)) (h : net (clickUrlA input) = some res)
    (hok : resOk res.status = true) (hb : res.body = some (JVal.obj fs))
    (hd : jlookup fs "data" = some (JVal.arr [])) :
    fetchGifs net (clickUrlA input) = Except.ok [] ∧
    clickEventsA net input = [DomEvent.assign ""] ∧
    containerA net input c0 = "" ∧
    countImg (containerA net input c0) = 0 ∧
    countNotice (containerA net input c0) = 0 := by
  have hf : fetchGifs net (clickUrlA input) = Except.ok [] := by
    simp [fetchGifs, h, hok, hb, strictGet, hd, mapJS]
  have he : clickEventsA net input = [DomEvent.assign ""] := by
    simp [clickEventsA, hf]
  have hc : containerA net input c0 = "" := by
    simp [containerA, he, applyEvents]
  exact ⟨hf, he, hc, by rw [hc]; rfl, by rw [hc]; rfl⟩

/-- C6 witness: a concrete 200 response with an empty `data` array. -/
theorem c6_empty_data_empty_grid_witness :
    resOk c6wRes.status = true ∧
    jlookup [("data", JVal.arr [])] "data" = some (JVal.arr []) ∧
    (fetchGifs c6wNet (clickUrlA "dog") = Except.ok [] ∧
      clickEventsA c6wNet "dog" = [DomEvent.assign ""] ∧
      containerA c6wNet "dog" "prev" = "" ∧
      countImg (containerA c6wNet "dog" "prev") = 0 ∧
      countNotice (containerA c6wNet "dog" "prev") = 0) :=
  ⟨rfl, rfl, c6_empty_data_empty_grid c6wNet "dog" "prev" c6wRes [("data", JVal.arr [])]
    rfl rfl rfl rfl⟩

/-- C7: invoking the main pipeline twice in sequence with the same input (so
the same URL) against an unchanged network produces the same container content
both times, and the second invocation fully replaces the first invocation's
content: the result never depends on what was in the container before. -/
theorem c7_sequential_idempotent (net : Network) (input : String) (c0 c1 : String) :
    containerA net input c0 = containerA net input c1 ∧
    containerA net input (containerA net input c0) = containerA net input c0 := by
  have key : ∀ a b : String, containerA net input a = containerA net input b := by
    intro a b
    unfold containerA clickEventsA
    cases hf : fetchGifs net (clickUrlA input) <;> simp [applyEvents]
  exact ⟨key c0 c1, key (containerA net input c0) c0⟩

/-- C7 witness: a concrete network and input. -/
theorem c7_sequential_idempotent_witness :
    containerA c7wNet "cats" "A" = containerA c7wNet "cats" "B" ∧
    containerA c7wNet "cats" (containerA c7wNet "cats" "A") = containerA c7wNet "cats" "A" :=
  c7_sequential_idempotent c7wNet "cats" "A" "B"

/-- C8 counterexample: a failing part_001 invocation performs zero destructive
clears and leaves the display region's prior content in place, contradicting
the claim that every invocation performs exactly one destructive clear and
leaves no prior content behind. -/
theorem c8_tags_failure_leaves_content :
    clickC c8tNet "birds" = COutcome.fetched (clickUrlC "birds") [] ∧
    countAssigns ([] : List DomEvent) = 0 ∧
    containerC c8tNet "birds" "OLD CONTENT" = "OLD CONTENT" :=
  ⟨rfl, rfl, rfl⟩

/-- C8 (amended): every invocation of the main click handler (script.js /
part_000) performs exactly one destructive `innerHTML` assignment, the final
content never depends on the prior content, and the write sequence is either
the clear followed by one image append per collected URL (success) or the
single assignment that installs the error notice (failure). -/
theorem c8_main_single_clear (net : Network) (input : String) :
    countAssigns (clickEventsA net input) = 1 ∧
    (∀ c0 c1 : String,
      applyEvents c0 (clickEventsA net input) = applyEvents c1 (clickEventsA net input)) ∧
    ((∃ srcs, fetchGifs net (clickUrlA input) = Except.ok srcs ∧
        clickEventsA net input =
          DomEvent.assign "" :: srcs.map (fun s => DomEvent.append (gifChunkA (strOf s)))) ∨
      clickEventsA net input = [DomEvent.assign errorChunkA]) := by
  cases hf : fetchGifs net (clickUrlA input) with
  | ok srcs =>
    have he : clickEventsA net input =
        DomEvent.assign "" :: srcs.map (fun s => DomEvent.append (gifChunkA (strOf s))) := by
      simp [clickEventsA, hf]
    refine ⟨?_, ?_, Or.inl ⟨srcs, rfl, he⟩⟩
    · rw [he]
      simp [countAssigns, isAssign, List.filter_cons, filter_isAssign_appends]
    · intro c0 c1
      rw [he]
      simp [applyEvents]
  | error e =>
    have he : clickEventsA net input = [DomEvent.assign errorChunkA] := by
      simp [clickEventsA, hf]
    refine ⟨?_, ?_, Or.inr he⟩
    · rw [he]
      rfl
    · intro c0 c1
      rw [he]
      simp [applyEvents]

/-- C8 witness: instantiating the amended theorem at a failing network. -/
theorem c8_main_single_clear_witness :
    countAssigns (clickEventsA c8wNet "any") = 1 ∧
    applyEvents "OLD" (clickEventsA c8wNet "any") = applyEvents "NEW" (clickEventsA c8wNet "any") :=
  ⟨(c8_main_single_clear c8wNet "any").1,
    (c8_main_single_clear c8wNet "any").2.1 "OLD" "NEW"⟩

/-- C9 counterexample: a failing part_001 invocation (here a decode error)
shows the user no error notice at all — its `catch` only logs — so the
user-visible output of a failing invocation is not the single generic error
notice the claim demands. -/
theorem c9_tags_silent_failure :
    clickC c9tNet "dogs" = COutcome.fetched (clickUrlC "dogs") [] ∧
    countNotice (containerC c9tNet "dogs" "") = 0 ∧
    containerC c9tNet "dogs" "" = "" :=
  ⟨rfl, rfl, rfl⟩

/-- C9 (amended): in the main variant (script.js / part_000), any two failing
invocations — whatever the error kind (transport, HTTP status, or decode /
extraction) — leave the container with the identical single generic error
notice; the error kind never reaches the user-visible output. -/
theorem c9_main_uniform_error (net net2 : Network) (input input2 c0 c2 : String)
    (e e2 : JsError) (h : fetchGifs net (clickUrlA input) = Except.error e)
    (h2 : fetchGifs net2 (clickUrlA input2) = Except.error e2) :
    containerA net input c0 = errorChunkA ∧
    containerA net2 input2 c2 = errorChunkA ∧
    containerA net input c0 = containerA net2 input2 c2 ∧
    countNotice errorChunkA = 1 ∧ countImg errorChunkA = 0 := by
  have k1 : containerA net input c0 = errorChunkA := by
    simp [containerA, clickEventsA, h, applyEvents]
  have k2 : containerA net2 input2 c2 = errorChunkA := by
    simp [containerA, clickEventsA, h2, applyEvents]
  exact ⟨k1, k2, k1.trans k2.symm, rfl, rfl⟩

/-- C9 witness: a transport failure and an HTTP 500 failure produce the same
user-visible notice. -/
theorem c9_main_uniform_error_witness :
    fetchGifs c9wNetA (clickUrlA "a") = Except.error JsError.transportError ∧
    fetchGifs c9wNetB (clickUrlA "b") = Except.error (JsError.errorMsg "HTTP 500") ∧
    (containerA c9wNetA "a" "X" = errorChunkA ∧
      containerA c9wNetB "b" "Y" = errorChunkA ∧
      containerA c9wNetA "a" "X" = containerA c9wNetB "b" "Y" ∧
      countNotice errorChunkA = 1 ∧ countImg errorChunkA = 0) :=
  ⟨rfl, rfl, c9_main_uniform_error c9wNetA c9wNetB "a" "b" "X" "Y"
    JsError.transportError (JsError.errorMsg "HTTP 500") rfl rfl⟩

/-- C10: in the default-query variants (script.js / part_000), a click with an
empty input requests exactly the same URL as a click with the input `cats`:
the precomputed default endpoint is character-for-character the URL the
per-click builder produces for the term `cats`. -/
theorem c10_default_endpoint_eq_cats :
    clickUrlA "" = clickUrlA "cats" ∧
    endpoint = clickBuildUrl "cats" ∧
    clickUrlA "" = endpoint :=
  ⟨rfl, rfl, rfl⟩

end GiphyLab
